import Mathlib

/-!
Verification of the categorization and aggregation core of the personal
finance tracker (src/FTA.py), embedded shallowly in Lean 4.

Modelling conventions:
* Currency amounts are embedded as `Rat`.  The Python code holds amounts as
  numbers coming from `st.number_input` and sums them with pandas; the sign
  and grouping behaviour verified here is independent of the numeric
  representation.
* Descriptions, categories, person names and lending types are `String`s,
  as in the source.
* Dates are `(year, month, day)` triples of naturals.
* pandas `groupby(...)['amount'].sum()` is embedded as `groupSum`: one row
  per distinct key, each carrying the sum of `amount` over the rows with
  that key.  pandas emits the groups sorted by key; the embedding emits
  them in first-occurrence order, which coincides with pandas on every
  input considered by the claims (keys first occurring in ascending order),
  and no claim depends on row order beyond that.
-/

/-- Substring test helper: does `t` occur at the head of the second list?
Embeds the prefix step of Python's `term in desc` containment test. -/
def headMatch : List Char → List Char → Bool
  | [], _ => true
  | _ :: _, [] => false
  | a :: as, b :: bs => a == b && headMatch as bs

/-- The test `occursIn t d` embeds Python's `t in d` substring containment on
lower-cased character lists (src/FTA.py line 144, `term in desc`). -/
def occursIn (t : List Char) : List Char → Bool
  | [] => headMatch t []
  | b :: bs => headMatch t (b :: bs) || occursIn t bs

/-- Embedding of `description.lower()` at src/FTA.py line 142, as a character list. -/
def lowered (s : String) : List Char := s.data.map Char.toLower

/-- The fixed ordered category → keyword table of src/FTA.py lines 132-141.
Python dicts iterate in insertion order, so the table is an ordered list. -/
def keywords : List (String × List String) :=
  [ ("Food", ["restaurant", "cafe", "groceries", "supermarket", "food", "eat"]),
    ("Transport", ["gas", "fuel", "bus", "train", "uber", "cab"]),
    ("Shopping", ["store", "online", "amazon", "mall", "clothes"]),
    ("Bills", ["rent", "utility", "phone bill", "electricity"]),
    ("Entertainment", ["movie", "cinema", "concert", "game"]),
    ("Trip", ["flight", "hotel", "travel", "vacation"]),
    ("Education/Fees", ["fees", "tuition", "school", "college", "university"]),
    ("Services", ["service", "repair", "instrument", "maintenance", "repare", "charge"]) ]

/-- One step of the loop at src/FTA.py lines 143-145: scan the table in
order, return the first category any of whose terms occurs in the lowered
description; fall through to "Other" (line 146). -/
def firstMatch (desc : List Char) : List (String × List String) → String
  | [] => "Other"
  | (cat, terms) :: rest =>
      if terms.any (fun t => occursIn t.data desc) then cat
      else firstMatch desc rest

/-- The function `suggest_category` of src/FTA.py lines 130-146. -/
def suggest_category (description : String) : String :=
  firstMatch (lowered description) keywords

/-- The spec's wording of the categorizer, for the refinement check of C1:
lower-case the text, return the first category in the fixed order for which
ANY keyword occurs as a substring, else "Other".  Stated through
`List.find?` rather than the source's loop. -/
def spec_suggest_category (description : String) : String :=
  match keywords.find?
      (fun p => p.2.any (fun t => occursIn t.data (lowered description))) with
  | some p => p.1
  | none => "Other"

/-- The fixed category list of the transaction form, src/FTA.py line 199. -/
def categories : List String :=
  ["Food", "Transport", "Shopping", "Bills", "Entertainment", "Trip",
   "Education/Fees", "Services", "Other"]

/-- A calendar date as stored with each record. -/
structure Date where
  year : Nat
  month : Nat
  day : Nat
deriving DecidableEq

/-- A transaction document as written by `add_transaction`
(src/FTA.py lines 93-101). -/
structure Txn where
  date : Date
  description : String
  amount : Rat
  category : String
deriving DecidableEq

/-- A lending/loan document as written by `add_lending_loan`
(src/FTA.py lines 111-119). -/
structure LendRec where
  date : Date
  person : String
  amount : Rat
  type : String
deriving DecidableEq

/-- Distinct keys of a list in first-occurrence order, with an accumulator
of keys already emitted. -/
def uniqueKeysAux {K : Type} [DecidableEq K] (seen : List K) : List K → List K
  | [] => []
  | k :: rest =>
      if k ∈ seen then uniqueKeysAux seen rest
      else k :: uniqueKeysAux (k :: seen) rest

/-- Distinct keys of a list in first-occurrence order. -/
def uniqueKeys {K : Type} [DecidableEq K] (l : List K) : List K :=
  uniqueKeysAux [] l

/-- Embedding of pandas `df.groupby(key)['amount'].sum()`: one output row
per distinct key, carrying the sum of the measure over the rows with that
key. -/
def groupSum {T K : Type} [DecidableEq K] (key : T → K) (amt : T → Rat)
    (rs : List T) : List (K × Rat) :=
  (uniqueKeys (rs.map key)).map
    (fun k => (k, ((rs.filter (fun r => decide (key r = k))).map amt).sum))

/-- The `"YYYY-MM"` month label, as produced by
`dt.to_period('M').astype(str)` at src/FTA.py line 218. -/
def monthLabel (y m : Nat) : String :=
  toString y ++ "-" ++ (if m < 10 then "0" ++ toString m else toString m)

/-- Days since 1970-01-01 of a civil date (standard civil-calendar
conversion), used for week bucketing. -/
def dayOrdinal (dt : Date) : Int :=
  let y : Int := (dt.year : Int) - (if dt.month ≤ 2 then 1 else 0)
  let m : Int := (dt.month : Int)
  let d : Int := (dt.day : Int)
  let era : Int := (if 0 ≤ y then y else y - 399) / 400
  let yoe : Int := y - era * 400
  let mp : Int := (m + 9) % 12
  let doy : Int := (153 * mp + 2) / 5 + d - 1
  let doe : Int := yoe * 365 + yoe / 4 - yoe / 100 + doy
  era * 146097 + doe - 719468

/-- Index of the Monday-to-Sunday week containing a date, the grouping key
of `dt.to_period('W')` at src/FTA.py line 217 (pandas `W` periods end on
Sunday; the embedding keys groups by week index and omits the
`"start/end"` label rendering, which does not affect the grouping). -/
def weekIndex (dt : Date) : Int := (dayOrdinal dt + 3).fdiv 7

/-- Daily expense aggregation, src/FTA.py line 221:
`groupby(transactions_df['date'].dt.date)['amount'].sum()`. -/
def sum_by_day (rs : List Txn) : List (Date × Rat) :=
  groupSum (fun r => r.date) (fun r => r.amount) rs

/-- Weekly expense aggregation, src/FTA.py lines 217 and 226:
`groupby('week')['amount'].sum()`. -/
def sum_by_week (rs : List Txn) : List (Int × Rat) :=
  groupSum (fun r => weekIndex r.date) (fun r => r.amount) rs

/-- Monthly expense aggregation, src/FTA.py lines 218 and 231:
`groupby('month')['amount'].sum()`. -/
def sum_by_month (rs : List Txn) : List (String × Rat) :=
  groupSum (fun r => monthLabel r.date.year r.date.month)
    (fun r => r.amount) rs

/-- Category aggregation, src/FTA.py line 235:
`groupby('category')['amount'].sum()`. -/
def sum_by_category (rs : List Txn) : List (String × Rat) :=
  groupSum (fun r => r.category) (fun r => r.amount) rs

/-- Lending aggregation by month and type, src/FTA.py line 275:
`groupby(['month', 'type'])['amount'].sum()`. -/
def sum_lending_by_month_and_type (rs : List LendRec) :
    List ((String × String) × Rat) :=
  groupSum (fun r => (monthLabel r.date.year r.date.month, r.type))
    (fun r => r.amount) rs

/-- Per-type lending total, src/FTA.py lines 177-178:
`lending_df[lending_df['type'] == t]['amount'].sum()`. -/
def total_by_type (rs : List LendRec) (t : String) : Rat :=
  ((rs.filter (fun r => decide (r.type = t))).map (fun r => r.amount)).sum

/-- Embedding of `total_expenses` at src/FTA.py line 176, with the explicit
empty-collection fallback to `0`. -/
def total_expenses (rs : List Txn) : Rat :=
  if rs = [] then 0 else (rs.map (fun r => r.amount)).sum

/-- Embedding of `total_lent` at src/FTA.py line 177, with the empty fallback. -/
def total_lent (rs : List LendRec) : Rat :=
  if rs = [] then 0 else total_by_type rs "Lent"

/-- Embedding of `total_loan` at src/FTA.py line 178, with the empty fallback. -/
def total_loan (rs : List LendRec) : Rat :=
  if rs = [] then 0 else total_by_type rs "Loan"

/-- The fixed bad-category list, src/FTA.py line 287. -/
def bad_categories : List String := ["Entertainment", "Food", "Trip"]

/-- Embedding of `total_bad_expenses` of src/FTA.py lines 291 and 293:
signed sum of amounts over the rows whose category is in
`bad_categories` (`isin` filter, then `.sum()`; no negation). -/
def total_bad_expenses (rs : List Txn) : Rat :=
  ((rs.filter (fun r => bad_categories.contains r.category)).map
    (fun r => r.amount)).sum

/-- Embedding of `good_expenses_amount` of src/FTA.py lines 292 and 307:
signed sum of amounts over the rows whose category is NOT in
`bad_categories`. -/
def good_expenses_amount (rs : List Txn) : Rat :=
  ((rs.filter (fun r => !(bad_categories.contains r.category))).map
    (fun r => r.amount)).sum

/-- The signed stored amount of the transaction form, src/FTA.py line 208:
`amount = amount_input if transaction_type == "Income" else -amount_input`. -/
def signed_amount (transaction_type : String) (amount_input : Rat) : Rat :=
  if transaction_type = "Income" then amount_input else -amount_input

/-- The transaction record assembled by the add-transaction flow,
src/FTA.py lines 192-209. -/
def submitted_transaction (transaction_date : Date) (description : String)
    (transaction_type : String) (amount_input : Rat) (category : String) :
    Txn :=
  { date := transaction_date, description := description,
    amount := signed_amount transaction_type amount_input,
    category := category }

/-- The lending record assembled by the lending form,
src/FTA.py lines 255-263. -/
def submitted_lending (lending_date : Date) (person : String)
    (loan_amount : Rat) (loan_type : String) : LendRec :=
  { date := lending_date, person := person, amount := loan_amount,
    type := loan_type }

/-! ### Sample inputs from the spec's worked examples -/

/-- The three-transaction input of the good-vs-bad worked example
(categories Food, Bills, Other with amounts -100, -50, 200). -/
def sampleTxns : List Txn :=
  [ { date := ⟨2024, 1, 1⟩, description := "a", amount := -100, category := "Food" },
    { date := ⟨2024, 1, 2⟩, description := "b", amount := -50, category := "Bills" },
    { date := ⟨2024, 1, 3⟩, description := "c", amount := 200, category := "Other" } ]

/-- The three-transaction input of the monthly-aggregation worked example. -/
def monthSample : List Txn :=
  [ { date := ⟨2024, 1, 1⟩, description := "a", amount := -20, category := "Food" },
    { date := ⟨2024, 1, 2⟩, description := "b", amount := -30, category := "Food" },
    { date := ⟨2024, 2, 1⟩, description := "c", amount := -10, category := "Transport" } ]

/-- The two-record lending input of the `total_by_type` worked example. -/
def sampleLending : List LendRec :=
  [ { date := ⟨2024, 1, 1⟩, person := "A", amount := 100, type := "Lent" },
    { date := ⟨2024, 1, 2⟩, person := "B", amount := 50, type := "Loan" } ]

/-! ### Helper lemmas about `uniqueKeys` and `groupSum` -/

theorem mem_of_mem_uniqueKeysAux {K : Type} [DecidableEq K] :
    ∀ {l seen : List K} {x : K}, x ∈ uniqueKeysAux seen l → x ∈ l ∧ x ∉ seen := by
  intro l
  induction l with
  | nil => intro seen x hx; simp [uniqueKeysAux] at hx
  | cons k rest ih =>
      intro seen x hx
      by_cases hk : k ∈ seen
      · simp [uniqueKeysAux, hk] at hx
        rcases ih hx with ⟨h1, h2⟩
        exact ⟨List.mem_cons_of_mem _ h1, h2⟩
      · simp [uniqueKeysAux, hk] at hx
        rcases hx with rfl | hx
        · exact ⟨List.mem_cons_self _ _, hk⟩
        · rcases ih hx with ⟨h1, h2⟩
          refine ⟨List.mem_cons_of_mem _ h1, fun hs => h2 ?_⟩
          exact List.mem_cons_of_mem _ hs

theorem mem_uniqueKeysAux_of_mem {K : Type} [DecidableEq K] :
    ∀ {l seen : List K} {x : K}, x ∈ l → x ∉ seen → x ∈ uniqueKeysAux seen l := by
  intro l
  induction l with
  | nil => intro seen x hx; simp at hx
  | cons k rest ih =>
      intro seen x hx hs
      by_cases hk : k ∈ seen
      · rcases List.mem_cons.1 hx with rfl | hx
        · exact absurd hk hs
        · simpa [uniqueKeysAux, hk] using ih hx hs
      · rcases List.mem_cons.1 hx with rfl | hx
        · simp [uniqueKeysAux, hk]
        · by_cases hxk : x = k
          · subst hxk; simp [uniqueKeysAux, hk]
          · have : x ∉ k :: seen := by
              intro h
              rcases List.mem_cons.1 h with h | h
              · exact hxk h
              · exact hs h
            simp [uniqueKeysAux, hk]
            exact Or.inr (ih hx this)

theorem nodup_uniqueKeysAux {K : Type} [DecidableEq K] :
    ∀ (l seen : List K), (uniqueKeysAux seen l).Nodup := by
  intro l
  induction l with
  | nil => intro seen; simp [uniqueKeysAux]
  | cons k rest ih =>
      intro seen
      by_cases hk : k ∈ seen
      · simpa [uniqueKeysAux, hk] using ih seen
      · simp only [uniqueKeysAux, hk, if_false]
        refine List.nodup_cons.2 ⟨fun hmem => ?_, ih (k :: seen)⟩
        exact (mem_of_mem_uniqueKeysAux hmem).2 (List.mem_cons_self _ _)

theorem nodup_uniqueKeys {K : Type} [DecidableEq K] (l : List K) :
    (uniqueKeys l).Nodup := nodup_uniqueKeysAux l []

theorem mem_uniqueKeys_iff {K : Type} [DecidableEq K] {l : List K} {x : K} :
    x ∈ uniqueKeys l ↔ x ∈ l := by
  constructor
  · intro h; exact (mem_of_mem_uniqueKeysAux h).1
  · intro h; exact mem_uniqueKeysAux_of_mem h (by simp)

theorem sum_map_filter_split {T : Type} (p : T → Bool) (amt : T → Rat) :
    ∀ rs : List T,
      ((rs.filter p).map amt).sum + ((rs.filter (fun r => !(p r))).map amt).sum
        = (rs.map amt).sum := by
  intro rs
  induction rs with
  | nil => simp
  | cons a rest ih =>
      cases ha : p a with
      | true =>
          simp only [List.filter_cons, ha, Bool.not_true, Bool.false_eq_true,
            if_true, if_false, List.map_cons, List.sum_cons]
          rw [add_assoc, ih]
      | false =>
          simp only [List.filter_cons, ha, Bool.not_false, Bool.false_eq_true,
            if_true, if_false, List.map_cons, List.sum_cons]
          rw [← ih]
          ring

theorem sum_map_filter_eq_sum_ite {T : Type} (p : T → Bool) (amt : T → Rat) :
    ∀ rs : List T,
      ((rs.filter p).map amt).sum
        = (rs.map (fun r => if p r then amt r else 0)).sum := by
  intro rs
  induction rs with
  | nil => simp
  | cons a rest ih =>
      by_cases ha : p a
      · simp [List.filter_cons, ha, ih]
      · have ha' : p a = false := by simpa using ha
        simp [List.filter_cons, ha', ih]

theorem sum_fiberwise {T K : Type} [DecidableEq K] (key : T → K) (amt : T → Rat) :
    ∀ (ks : List K) (rs : List T), ks.Nodup → (∀ r ∈ rs, key r ∈ ks) →
      (ks.map (fun k =>
          ((rs.filter (fun r => decide (key r = k))).map amt).sum)).sum
        = (rs.map amt).sum := by
  intro ks
  induction ks with
  | nil =>
      intro rs _ hcov
      have : rs = [] := by
        cases rs with
        | nil => rfl
        | cons a rest => exact absurd (hcov a (List.mem_cons_self _ _)) (by simp)
      subst this; simp
  | cons k ks ih =>
      intro rs hnd hcov
      have hknotin : k ∉ ks := (List.nodup_cons.1 hnd).1
      have hndks : ks.Nodup := (List.nodup_cons.1 hnd).2
      set rs' := rs.filter (fun r => !(decide (key r = k))) with hrs'
      have hcov' : ∀ r ∈ rs', key r ∈ ks := by
        intro r hr
        have hrrs : r ∈ rs := List.mem_of_mem_filter hr
        have hne : ¬ (key r = k) := by
          have := List.of_mem_filter hr
          simpa using this
        rcases List.mem_cons.1 (hcov r hrrs) with h | h
        · exact absurd h hne
        · exact h
      have hfib : ∀ k' ∈ ks,
          ((rs.filter (fun r => decide (key r = k'))).map amt).sum
            = ((rs'.filter (fun r => decide (key r = k'))).map amt).sum := by
        intro k' hk'
        have hne : k' ≠ k := fun h => hknotin (h ▸ hk')
        rw [hrs', List.filter_filter]
        congr 1
        refine congrArg (List.map amt) (List.filter_congr ?_)
        intro a _
        by_cases hak : key a = k'
        · have : ¬ (key a = k) := fun h => hne (by rw [← hak, h])
          simp [hak, this, hne]
        · simp [hak]
      calc
        (((k :: ks).map (fun k' =>
            ((rs.filter (fun r => decide (key r = k'))).map amt).sum)).sum)
            = ((rs.filter (fun r => decide (key r = k))).map amt).sum
              + (ks.map (fun k' =>
                  ((rs.filter (fun r => decide (key r = k'))).map amt).sum)).sum := by
              simp
        _ = ((rs.filter (fun r => decide (key r = k))).map amt).sum
              + (ks.map (fun k' =>
                  ((rs'.filter (fun r => decide (key r = k'))).map amt).sum)).sum := by
              rw [List.map_congr_left hfib]
        _ = ((rs.filter (fun r => decide (key r = k))).map amt).sum
              + (rs'.map amt).sum := by rw [ih rs' hndks hcov']
        _ = (rs.map amt).sum := sum_map_filter_split _ amt rs

theorem groupSum_fst {T K : Type} [DecidableEq K] (key : T → K) (amt : T → Rat)
    (rs : List T) : (groupSum key amt rs).map Prod.fst = uniqueKeys (rs.map key) := by
  simp [groupSum, List.map_map, Function.comp_def]

theorem groupSum_sum_snd {T K : Type} [DecidableEq K] (key : T → K) (amt : T → Rat)
    (rs : List T) :
    ((groupSum key amt rs).map Prod.snd).sum = (rs.map amt).sum := by
  unfold groupSum
  rw [List.map_map]
  have hcov : ∀ r ∈ rs, key r ∈ uniqueKeys (rs.map key) := by
    intro r hr
    exact mem_uniqueKeys_iff.2 (List.mem_map_of_mem key hr)
  simpa [Function.comp_def] using
    sum_fiberwise key amt (uniqueKeys (rs.map key)) rs
      (nodup_uniqueKeys _) hcov

/-! ### Helper lemmas about the categorizer -/

theorem firstMatch_eq_find (desc : List Char) :
    ∀ ks : List (String × List String),
      firstMatch desc ks =
        (match ks.find? (fun p => p.2.any (fun t => occursIn t.data desc)) with
         | some p => p.1
         | none => "Other") := by
  intro ks
  induction ks with
  | nil => simp [firstMatch]
  | cons p rest ih =>
      rcases p with ⟨cat, terms⟩
      cases h : terms.any (fun t => occursIn t.data desc) with
      | true => simp [firstMatch, List.find?, h]
      | false => simpa [firstMatch, List.find?, h] using ih

theorem firstMatch_mem (desc : List Char) :
    ∀ ks : List (String × List String),
      firstMatch desc ks = "Other" ∨ firstMatch desc ks ∈ ks.map Prod.fst := by
  intro ks
  induction ks with
  | nil => exact Or.inl rfl
  | cons p rest ih =>
      rcases p with ⟨cat, terms⟩
      cases h : terms.any (fun t => occursIn t.data desc) with
      | true => simp [firstMatch, h]
      | false =>
          rcases ih with h1 | h1
          · exact Or.inl (by simpa [firstMatch, h] using h1)
          · refine Or.inr ?_
            simp only [firstMatch, h, Bool.false_eq_true, if_false]
            exact List.mem_cons_of_mem _ h1

/-- A case variant replaces characters by case variants of the same letter
pointwise (same length, same letters up to `Char.toLower`). -/
def caseVariant (a b : String) : Prop :=
  List.Forall₂ (fun x y => x.toLower = y.toLower) a.data b.data

theorem map_toLower_eq_of_forall₂ :
    ∀ {l1 l2 : List Char}, List.Forall₂ (fun x y => x.toLower = y.toLower) l1 l2 →
      l1.map Char.toLower = l2.map Char.toLower := by
  intro l1 l2 h
  induction h with
  | nil => rfl
  | cons hxy _ ih => simp [hxy, ih]

theorem lowered_eq_of_caseVariant {a b : String} (h : caseVariant a b) :
    lowered a = lowered b :=
  map_toLower_eq_of_forall₂ h

/-! ### Claim theorems -/

/-- C1: `suggest_category` lower-cases the description and returns the first
category in the fixed order (Food, Transport, Shopping, Bills,
Entertainment, Trip, Education/Fees, Services) any of whose keywords occurs
as a substring; the earlier category wins on a tie ("restaurant repair"
yields "Food"), and "Other" is returned when nothing matches. -/
theorem C1_suggest_category_first_match_order :
    (∀ d : String, suggest_category d = spec_suggest_category d) ∧
    suggest_category "restaurant repair" = "Food" ∧
    suggest_category "zzz" = "Other" := by
  refine ⟨fun d => ?_, by decide, by decide⟩
  unfold suggest_category spec_suggest_category
  exact firstMatch_eq_find (lowered d) keywords

/-- C8: `suggest_category` is case-insensitive: any two descriptions that
agree letter-by-letter up to character case receive the same category. -/
theorem C8_suggest_category_case_insensitive (a b : String)
    (h : caseVariant a b) : suggest_category a = suggest_category b := by
  unfold suggest_category
  rw [lowered_eq_of_caseVariant h]

/-- Witness for C8 at the spec's example pair. -/
theorem C8_witness :
    caseVariant "RESTAURANT" "restaurant" ∧
    suggest_category "RESTAURANT" = suggest_category "restaurant" := by
  have h : caseVariant "RESTAURANT" "restaurant" := by
    unfold caseVariant
    simp only [List.forall₂_cons, List.forall₂_nil_left_iff]
    decide
  exact ⟨h, C8_suggest_category_case_insensitive "RESTAURANT" "restaurant" h⟩

/-- C10: every value `suggest_category` can return is one of the nine
categories of the transaction form, so `categories.index(...)` at
src/FTA.py line 202 always succeeds. -/
theorem C10_suggest_category_always_in_categories :
    ∀ d : String, suggest_category d ∈ categories ∧
      categories.indexOf (suggest_category d) < categories.length := by
  intro d
  have hmem : suggest_category d ∈ categories := by
    rcases firstMatch_mem (lowered d) keywords with h | h
    · rw [suggest_category, h]; decide
    · have hsub : ∀ x ∈ keywords.map Prod.fst, x ∈ categories := by decide
      exact hsub _ (by simpa [suggest_category] using h)
  exact ⟨hmem, List.indexOf_lt_length.2 hmem⟩

/-- C2 counterexample: on the spec's worked input the code's bad total is
the signed sum (-100), not the positive magnitude 100 the claim states. -/
theorem C2_counterexample_bad_total_sign :
    ¬ (total_bad_expenses sampleTxns = 100) := by
  have h : total_bad_expenses sampleTxns = -100 := by
    simp [total_bad_expenses, sampleTxns, bad_categories]
  rw [h]
  norm_num

/-- C2 (amended): the reported bad total is the SIGNED sum of the amounts
of transactions in the bad categories (so -100, not +100, on the worked
example), the good total is the signed sum of the rest (150), and the two
partition the overall signed total. -/
theorem C2_split_good_bad_signed_totals :
    (∀ rs : List Txn, total_bad_expenses rs + good_expenses_amount rs
        = (rs.map (fun r => r.amount)).sum) ∧
    total_bad_expenses sampleTxns = -100 ∧
    good_expenses_amount sampleTxns = 150 := by
  refine ⟨fun rs => ?_, ?_, ?_⟩
  · simpa [total_bad_expenses, good_expenses_amount] using
      sum_map_filter_split (fun r => bad_categories.contains r.category)
        (fun r => r.amount) rs
  · simp [total_bad_expenses, sampleTxns, bad_categories]
  · simp [good_expenses_amount, sampleTxns, bad_categories]
    norm_num

/-- C3: for every non-empty transaction list, the by-category aggregation's
totals sum to the input's total, and every category present in the input
appears exactly once among the grouping keys. -/
theorem C3_sum_by_category_total_preservation (rs : List Txn) (hne : rs ≠ []) :
    ((sum_by_category rs).map Prod.snd).sum = (rs.map (fun r => r.amount)).sum ∧
    ∀ c : String, c ∈ rs.map (fun r => r.category) →
      ((sum_by_category rs).map Prod.fst).count c = 1 := by
  refine ⟨groupSum_sum_snd _ _ _, ?_⟩
  intro c hc
  unfold sum_by_category
  rw [groupSum_fst]
  exact List.count_eq_one_of_mem (nodup_uniqueKeys _) (mem_uniqueKeys_iff.2 hc)

/-- Witness for C3 on the worked three-transaction input. -/
theorem C3_witness :
    sampleTxns ≠ [] ∧
    ((sum_by_category sampleTxns).map Prod.snd).sum
      = (sampleTxns.map (fun r => r.amount)).sum ∧
    ((sum_by_category sampleTxns).map Prod.fst).count "Food" = 1 :=
  ⟨by simp [sampleTxns],
   (C3_sum_by_category_total_preservation sampleTxns (by simp [sampleTxns])).1,
   (C3_sum_by_category_total_preservation sampleTxns (by simp [sampleTxns])).2
     "Food" (by simp [sampleTxns])⟩

/-- C4: on an empty record collection every aggregation returns an empty
result list, and every total falls back to zero, with no failure case. -/
theorem C4_empty_collections_yield_empty_or_zero :
    sum_by_day [] = [] ∧ sum_by_week [] = [] ∧ sum_by_month [] = [] ∧
    sum_by_category [] = [] ∧ sum_lending_by_month_and_type [] = [] ∧
    (∀ t : String, total_by_type [] t = 0) ∧
    total_expenses [] = 0 ∧ total_lent [] = 0 ∧ total_loan [] = 0 :=
  ⟨rfl, rfl, rfl, rfl, rfl, fun _ => rfl, rfl, rfl, rfl⟩

/-- C5: the monthly aggregation has one row per distinct month key, and on
the spec's worked input it yields [("2024-01", -50), ("2024-02", -10)]. -/
theorem C5_sum_by_month_example :
    (∀ rs : List Txn, ((sum_by_month rs).map Prod.fst).Nodup) ∧
    sum_by_month monthSample = [("2024-01", -50), ("2024-02", -10)] := by
  constructor
  · intro rs
    unfold sum_by_month
    rw [groupSum_fst]
    exact nodup_uniqueKeys _
  · have h1 : monthLabel 2024 1 = "2024-01" := by decide
    have h2 : monthLabel 2024 2 = "2024-02" := by decide
    simp [sum_by_month, groupSum, uniqueKeys, uniqueKeysAux, monthSample, h1, h2]
    norm_num

/-- C7: the per-type lending total sums the amounts of exactly the records
whose type equals the given one (stated as a sum of per-record
contributions), and the worked example with type "Lent" returns 100. -/
theorem C7_total_by_type_sums_matching_records :
    (∀ (rs : List LendRec) (t : String),
        total_by_type rs t
          = (rs.map (fun r => if r.type = t then r.amount else 0)).sum) ∧
    total_by_type sampleLending "Lent" = 100 := by
  constructor
  · intro rs t
    unfold total_by_type
    rw [sum_map_filter_eq_sum_ite]
    simp only [decide_eq_true_eq]
  · simp [total_by_type, sampleLending]

/-- C9: a transaction created through the add-transaction flow (type from
the Expense/Income selector, amount from a number input with minimum 0.01,
category from the fixed selector) has a nonzero amount whose sign encodes
the type and whose magnitude is at least 0.01, and a category in the fixed
set; a lending record from the lending form has amount strictly positive. -/
theorem C9_submitted_record_invariants
    (transaction_type : String) (amount_input : Rat) (category : String)
    (loan_amount : Rat)
    (hty : transaction_type = "Expense" ∨ transaction_type = "Income")
    (hamt : 1/100 ≤ amount_input)
    (hcat : category ∈ categories)
    (hloan : 1/100 ≤ loan_amount) :
    ∀ (d d2 : Date) (description person loan_type : String),
      (submitted_transaction d description transaction_type amount_input
          category).amount ≠ 0 ∧
      (transaction_type = "Income" →
        0 < (submitted_transaction d description transaction_type amount_input
          category).amount) ∧
      (transaction_type = "Expense" →
        (submitted_transaction d description transaction_type amount_input
          category).amount < 0) ∧
      1/100 ≤ |(submitted_transaction d description transaction_type
          amount_input category).amount| ∧
      (submitted_transaction d description transaction_type amount_input
          category).category ∈ categories ∧
      0 < (submitted_lending d2 person loan_amount loan_type).amount := by
  intro d d2 description person loan_type
  have hpos : 0 < amount_input := lt_of_lt_of_le (by norm_num) hamt
  have hlpos : 0 < loan_amount := lt_of_lt_of_le (by norm_num) hloan
  rcases hty with hty | hty
  · have hne : ¬ (transaction_type = "Income") := by rw [hty]; decide
    have hamount : (submitted_transaction d description transaction_type
        amount_input category).amount = -amount_input := by
      simp [submitted_transaction, signed_amount, hne]
    refine ⟨?_, ?_, ?_, ?_, hcat, hlpos⟩
    · rw [hamount]; exact neg_ne_zero.2 hpos.ne'
    · intro h; exact absurd h hne
    · intro _; rw [hamount]; exact neg_lt_zero.2 hpos
    · rw [hamount, abs_neg, abs_of_pos hpos]; exact hamt
  · have hamount : (submitted_transaction d description transaction_type
        amount_input category).amount = amount_input := by
      simp [submitted_transaction, signed_amount, hty]
    refine ⟨?_, ?_, ?_, ?_, hcat, hlpos⟩
    · rw [hamount]; exact hpos.ne'
    · intro _; rw [hamount]; exact hpos
    · intro h; rw [hty] at h; exact absurd h (by decide)
    · rw [hamount, abs_of_pos hpos]; exact hamt

/-- Witness for C9 at a concrete expense of 5 in category Food and a
lending record of 7. -/
theorem C9_witness :
    ("Expense" = "Expense" ∨ "Expense" = "Income") ∧
    ((1 : Rat)/100 ≤ 5) ∧ "Food" ∈ categories ∧ ((1 : Rat)/100 ≤ 7) ∧
    ((submitted_transaction ⟨2024, 1, 1⟩ "coffee" "Expense" 5
        "Food").amount ≠ 0 ∧
      ("Expense" = "Income" →
        0 < (submitted_transaction ⟨2024, 1, 1⟩ "coffee" "Expense" 5
          "Food").amount) ∧
      ("Expense" = "Expense" →
        (submitted_transaction ⟨2024, 1, 1⟩ "coffee" "Expense" 5
          "Food").amount < 0) ∧
      1/100 ≤ |(submitted_transaction ⟨2024, 1, 1⟩ "coffee" "Expense" 5
          "Food").amount| ∧
      (submitted_transaction ⟨2024, 1, 1⟩ "coffee" "Expense" 5
          "Food").category ∈ categories ∧
      0 < (submitted_lending ⟨2024, 1, 2⟩ "A" 7 "Lent").amount) :=
  ⟨Or.inl rfl, by norm_num, by decide, by norm_num,
   C9_submitted_record_invariants "Expense" 5 "Food" 7 (Or.inl rfl)
     (by norm_num) (by decide) (by norm_num) ⟨2024, 1, 1⟩ ⟨2024, 1, 2⟩
     "coffee" "A" "Lent"⟩
